import Mathlib

/-!
Shallow embedding of the `flow` dispatch core, from
`flow/include/dispatch.h` and `flow/include/dispatch/dispatch_ostream.h`:
the `StampTraits` trait system (primary template over fundamental types and
the partial specialization for `std::chrono::time_point`), the
`Dispatch<StampT, ValueT>` stamped-value wrapper, and the
`CaptureRange<StampT>` bounds descriptor.

Machine-level assumptions are the common LP64 model: 8-bit `char` (signed),
16-bit `short`, 32-bit `int`, 64-bit `long` and `long long`.
-/

/-- The fundamental arithmetic types of C++ that can appear as a stamp type
of the primary `StampTraits` template, which carries
`static_assert(std::is_fundamental<StampT>())`. (`void` and `nullptr_t`
are also fundamental but have no numeric limits and are omitted.) -/
inductive FundType
  | bool
  | char
  | schar
  | uchar
  | short_
  | ushort
  | int_
  | uint
  | long_
  | ulong
  | llong
  | ullong
  | float_
  | double_
  | ldouble
deriving DecidableEq

/-- `std::is_fundamental<T>` over the modelled types: all of them are
fundamental, so the static_assert in the primary template accepts each. -/
def isFundamental : FundType → Bool := fun _ => true

/-- `std::is_integral<T>` over the modelled types. -/
def isIntegral : FundType → Bool
  | .float_ => false
  | .double_ => false
  | .ldouble => false
  | _ => true

/-- `std::make_signed<T>::type`. The C++ standard defines it only when `T`
is an integral (or enumeration) type other than `bool`; for every other
type, `std::make_signed` is ill-formed, modelled as `none`. -/
def makeSigned : FundType → Option FundType
  | .char => some .schar
  | .schar => some .schar
  | .uchar => some .schar
  | .short_ => some .short_
  | .ushort => some .short_
  | .int_ => some .int_
  | .uint => some .int_
  | .long_ => some .long_
  | .ulong => some .long_
  | .llong => some .llong
  | .ullong => some .llong
  | _ => none

/-- `std::numeric_limits<T>::min()` as an integer, for the integral types
(`none` for the floating-point types, whose limits are not integers and are
not needed by any claim). -/
def limitsMin : FundType → Option Int
  | .bool => some 0
  | .char => some (-128)
  | .schar => some (-128)
  | .uchar => some 0
  | .short_ => some (-32768)
  | .ushort => some 0
  | .int_ => some (-2147483648)
  | .uint => some 0
  | .long_ => some (-9223372036854775808)
  | .ulong => some 0
  | .llong => some (-9223372036854775808)
  | .ullong => some 0
  | .float_ => none
  | .double_ => none
  | .ldouble => none

/-- `std::numeric_limits<T>::max()` as an integer, for the integral types. -/
def limitsMax : FundType → Option Int
  | .bool => some 1
  | .char => some 127
  | .schar => some 127
  | .uchar => some 255
  | .short_ => some 32767
  | .ushort => some 65535
  | .int_ => some 2147483647
  | .uint => some 4294967295
  | .long_ => some 9223372036854775807
  | .ulong => some 18446744073709551615
  | .llong => some 9223372036854775807
  | .ullong => some 18446744073709551615
  | .float_ => none
  | .double_ => none
  | .ldouble => none

/-- Both numeric limits exist and satisfy `min < max`. -/
def limitsOrdered (t : FundType) : Bool :=
  match limitsMin t, limitsMax t with
  | some lo, some hi => decide (lo < hi)
  | _, _ => false

/-- A `std::chrono::duration` type: an arithmetic representation type and a
ratio period. -/
structure DurationTy where
  rep : FundType
  num : Nat
  den : Nat
deriving DecidableEq

/-- A `std::chrono::time_point` type: a clock (abstracted to a tag) plus the
duration type measuring time since the epoch. -/
structure TimePointTy where
  clock : Nat
  dur : DurationTy
deriving DecidableEq

/-- The value of `DurationT::min()`, i.e.
`std::chrono::duration_values<Rep>::min() = numeric_limits<Rep>::lowest()`,
which for the integral representations modelled here coincides with
`numeric_limits<Rep>::min()`. Duration and time-point values are modelled by
their tick count. -/
def durationMinVal (d : DurationTy) : Option Int := limitsMin d.rep

/-- The value of `DurationT::max() = numeric_limits<Rep>::max()`. -/
def durationMaxVal (d : DurationTy) : Option Int := limitsMax d.rep

/-- `time_point::min()`, which is `time_point(DurationT::min())`. -/
def timePointMinVal (tp : TimePointTy) : Option Int := durationMinVal tp.dur

/-- `time_point::max()`, which is `time_point(DurationT::max())`. -/
def timePointMaxVal (tp : TimePointTy) : Option Int := durationMaxVal tp.dur

/-- A stamp type: either a fundamental arithmetic type (handled by the
primary `StampTraits` template) or a `std::chrono::time_point` (handled by
the partial specialization). -/
inductive StampTy
  | fund (t : FundType)
  | timePoint (tp : TimePointTy)
deriving DecidableEq

/-- An offset type, as produced by `StampTraits<S>::offset_type`: either a
fundamental type (primary template) or a duration type (time-point
specialization). -/
inductive OffsetTy
  | fund (t : FundType)
  | dur (d : DurationTy)
deriving DecidableEq

/-- Whether `StampTraits<S>` is resolvable, i.e. instantiates without a
compile error. The primary template requires
`std::is_fundamental<StampT>` (static_assert) and declares
`offset_type = typename std::make_signed<StampT>::type`, which is ill-formed
when `std::make_signed` is (non-integral or `bool` stamps); the time-point
specialization always instantiates. -/
def stampTraitsResolvable : StampTy → Bool
  | .fund t => isFundamental t && (makeSigned t).isSome
  | .timePoint _ => true

/-- `StampTraits<S>::offset_type` (`none` when not resolvable). Primary
template: `typename std::make_signed<StampT>::type`; time-point
specialization: exactly the duration type parameter. -/
def stampTraitsOffset : StampTy → Option OffsetTy
  | .fund t => if isFundamental t then (makeSigned t).map OffsetTy.fund else none
  | .timePoint tp => some (OffsetTy.dur tp.dur)

/-- The value of `StampTraits<S>::min()` (`none` when not resolvable). The
primary template delegates to `std::numeric_limits<StampT>::min()`; the
time-point specialization delegates to `stamp_type::min()`. -/
def stampTraitsMinVal : StampTy → Option Int
  | .fund t => if stampTraitsResolvable (.fund t) then limitsMin t else none
  | .timePoint tp => timePointMinVal tp

/-- The value of `StampTraits<S>::max()` (`none` when not resolvable). -/
def stampTraitsMaxVal : StampTy → Option Int
  | .fund t => if stampTraitsResolvable (.fund t) then limitsMax t else none
  | .timePoint tp => timePointMaxVal tp

/-- Value-level view of `StampTraits<S>::min()` / `StampTraits<S>::max()`
for a stamp type already known to be resolvable; consumed by the defaulted
arguments of the `CaptureRange` constructor. -/
class StampTraits (α : Type) where
  min : α
  max : α

/-- `StampTraits<int32_t>`: stamps modelled as unbounded integers carrying
the `int32_t` numeric limits. -/
instance : StampTraits Int := ⟨-2147483648, 2147483647⟩

/-- `flow::Dispatch<StampT, ValueT>`: private members `stamp_` and
`value_`. -/
structure Dispatch (S V : Type) where
  stamp_ : S
  value_ : V

/-- The `Dispatch` value constructor: it copies the stamp and builds the
value in place from the forwarded constructor arguments; `v` stands for the
`ValueT` object those arguments construct. -/
def Dispatch.construct {S V : Type} (s : S) (v : V) : Dispatch S V := ⟨s, v⟩

/-- `Dispatch::stamp()`: returns the sequencing stamp `stamp_`. -/
def Dispatch.stamp {S V : Type} (d : Dispatch S V) : S := d.stamp_

/-- `Dispatch::data()`: returns the underlying data element `value_`. -/
def Dispatch.data {S V : Type} (d : Dispatch S V) : V := d.value_

/-- `Dispatch::operator<`: `this->stamp_ < other.stamp_`, where `ltS` is
the Bool-valued `operator<` of the stamp type `S`. -/
def Dispatch.lt {S V : Type} (ltS : S → S → Bool) (a b : Dispatch S V) : Bool :=
  ltS a.stamp_ b.stamp_

/-- A call to `Dispatch::stamp()` read as a state transformer: the result
together with the object after the call. The member is `const`, so the
post-state is the pre-state. -/
def Dispatch.stampCall {S V : Type} (d : Dispatch S V) : S × Dispatch S V :=
  (d.stamp_, d)

/-- A call to `Dispatch::data()` as a state transformer (`const` member). -/
def Dispatch.dataCall {S V : Type} (d : Dispatch S V) : V × Dispatch S V :=
  (d.value_, d)

/-- A call to `Dispatch::operator<` as a state transformer over both
operands (`const` member taking a `const` reference). -/
def Dispatch.ltCall {S V : Type} (ltS : S → S → Bool) (a b : Dispatch S V) :
    Bool × Dispatch S V × Dispatch S V :=
  (Dispatch.lt ltS a b, a, b)

/-- The friend `operator<<` for `Dispatch` in `dispatch.h`: it streams
`"stamp: " << stamp_ << "\nvalue: " << value_`, with `showS` / `showV` the
stream renderings of the stamp and value types. -/
def Dispatch.ostream {S V : Type} (showS : S → String) (showV : V → String)
    (d : Dispatch S V) : String :=
  "stamp: " ++ showS d.stamp_ ++ "\nvalue: " ++ showV d.value_

/-- `flow::CaptureRange<StampT>`: public data members `lower_stamp` and
`upper_stamp`. -/
structure CaptureRange (S : Type) where
  lower_stamp : S
  upper_stamp : S

/-- The `CaptureRange` constructor with its two defaulted parameters:
`none` models an omitted argument, which defaults to
`StampTraits<StampT>::min()` resp. `StampTraits<StampT>::max()`. The fields
are initialized to the arguments with no validation or adjustment. -/
def CaptureRange.construct {S : Type} [StampTraits S]
    (lower upper : Option S) : CaptureRange S :=
  ⟨lower.getD (StampTraits.min : S), upper.getD (StampTraits.max : S)⟩

/-- The statement `range.lower_stamp = x;`, legal for any holder of a
non-const `CaptureRange` because `lower_stamp` is a public non-const data
member; read as a state transformer yielding the object afterwards. -/
def CaptureRange.assignLower {S : Type} (r : CaptureRange S) (x : S) :
    CaptureRange S :=
  ⟨x, r.upper_stamp⟩

/-- The statement `range.upper_stamp = x;` (public non-const data member). -/
def CaptureRange.assignUpper {S : Type} (r : CaptureRange S) (x : S) :
    CaptureRange S :=
  ⟨r.lower_stamp, x⟩

/-- The friend `operator<<` for `CaptureRange` in `dispatch.h` (the free
overload in `dispatch/dispatch_ostream.h` streams the same two public
fields): `"lower_stamp: " << lower_stamp << ", upper_stamp: " << upper_stamp`. -/
def CaptureRange.ostream {S : Type} (showS : S → String) (r : CaptureRange S) :
    String :=
  "lower_stamp: " ++ showS r.lower_stamp ++ ", upper_stamp: " ++ showS r.upper_stamp

/-- C1: for every stamp type `S` with an order `ltS`, all stamps `s1`, `s2`
and all values `v1`, `v2`, `Dispatch(s1, v1) < Dispatch(s2, v2)` returns
true iff `s1 < s2`; the values are never consulted, as the quantification
imposes no relation between `v1` and `v2`. -/
theorem dispatch_lt_stamp_only {S V : Type} (ltS : S → S → Bool)
    (s1 s2 : S) (v1 v2 : V) :
    Dispatch.lt ltS (Dispatch.construct s1 v1) (Dispatch.construct s2 v2) = true ↔
      ltS s1 s2 = true :=
  Iff.rfl

/-- Witness for the stamp-only ordering at `S = int` stamps 3 and 5 with
unrelated values 7 and 0. -/
theorem dispatch_lt_stamp_only_witness :
    Dispatch.lt (fun a b : Int => decide (a < b))
      (Dispatch.construct 3 (7 : Nat)) (Dispatch.construct 5 0) = true ↔
      (fun a b : Int => decide (a < b)) 3 5 = true :=
  dispatch_lt_stamp_only (fun a b : Int => decide (a < b)) 3 5 7 0

/-- C6: under an irreflexive stamp order, two dispatches carrying the same
stamp are mutually unordered (`<` is false both ways), however their values
differ. -/
theorem dispatch_equal_stamps_unordered {S V : Type} (ltS : S → S → Bool)
    (s : S) (hirr : ltS s s = false) (v1 v2 : V) (_hne : v1 ≠ v2) :
    Dispatch.lt ltS (Dispatch.construct s v1) (Dispatch.construct s v2) = false ∧
    Dispatch.lt ltS (Dispatch.construct s v2) (Dispatch.construct s v1) = false :=
  ⟨hirr, hirr⟩

/-- Witness for mutual unorderedness at stamp 4 with distinct values 1, 2. -/
theorem dispatch_equal_stamps_unordered_witness :
    Dispatch.lt (fun a b : Int => decide (a < b))
      (Dispatch.construct 4 (1 : Nat)) (Dispatch.construct 4 2) = false ∧
    Dispatch.lt (fun a b : Int => decide (a < b))
      (Dispatch.construct 4 (2 : Nat)) (Dispatch.construct 4 1) = false :=
  dispatch_equal_stamps_unordered (fun a b : Int => decide (a < b)) 4
    (by decide) 1 2 (by decide)

/-- C5: `stamp()` and `data()` return exactly the stamp passed at
construction and the value built in place from the constructor arguments. -/
theorem dispatch_construct_roundtrip {S V : Type} (s : S) (v : V) :
    (Dispatch.construct s v).stamp = s ∧ (Dispatch.construct s v).data = v :=
  ⟨rfl, rfl⟩

/-- Witness for the construction round-trip at stamp 5, value 9. -/
theorem dispatch_construct_roundtrip_witness :
    (Dispatch.construct (5 : Int) (9 : Nat)).stamp = 5 ∧
    (Dispatch.construct (5 : Int) (9 : Nat)).data = 9 :=
  dispatch_construct_roundtrip 5 9

/-- C3 counterexample: `CaptureRange`'s bounds are public non-const data
members, so the public interface does let them change after construction:
assigning `lower_stamp` on the range constructed as `CaptureRange(3, 9)`
changes its lower bound. -/
theorem captureRange_field_assignment_mutates :
    (CaptureRange.assignLower
        (CaptureRange.construct (some (3 : Int)) (some 9)) 7).lower_stamp ≠
      (CaptureRange.construct (some (3 : Int)) (some 9)).lower_stamp := by
  decide

/-- C3 (amended): `Dispatch` exposes no mutators — `stamp()`, `data()` and
`operator<` are const observers that leave the object unchanged, and its
fields are private — and `CaptureRange` has no setter methods; but
`CaptureRange.lower_stamp` / `CaptureRange.upper_stamp` are public
non-const members, so a constructed range's bounds can be reassigned
directly. -/
theorem dispatch_observers_const_captureRange_fields_assignable
    {S V : Type} (ltS : S → S → Bool) (d e : Dispatch S V)
    (r : CaptureRange S) (x : S) :
    (Dispatch.stampCall d).2 = d ∧
    (Dispatch.dataCall d).2 = d ∧
    (Dispatch.ltCall ltS d e).2 = (d, e) ∧
    (CaptureRange.assignLower r x).lower_stamp = x ∧
    (CaptureRange.assignLower r x).upper_stamp = r.upper_stamp ∧
    (CaptureRange.assignUpper r x).upper_stamp = x ∧
    (CaptureRange.assignUpper r x).lower_stamp = r.lower_stamp :=
  ⟨rfl, rfl, rfl, rfl, rfl, rfl, rfl⟩

/-- Witness for the const-observer/assignable-field statement at concrete
integer instances. -/
theorem dispatch_observers_const_captureRange_fields_assignable_witness :
    (Dispatch.stampCall (Dispatch.construct (1 : Int) (2 : Nat))).2 =
      Dispatch.construct 1 2 ∧
    (Dispatch.dataCall (Dispatch.construct (1 : Int) (2 : Nat))).2 =
      Dispatch.construct 1 2 ∧
    (Dispatch.ltCall (fun a b : Int => decide (a < b))
        (Dispatch.construct (1 : Int) (2 : Nat)) (Dispatch.construct 3 4)).2 =
      (Dispatch.construct 1 2, Dispatch.construct 3 4) ∧
    (CaptureRange.assignLower (CaptureRange.mk (3 : Int) 9) 7).lower_stamp = 7 ∧
    (CaptureRange.assignLower (CaptureRange.mk (3 : Int) 9) 7).upper_stamp =
      (CaptureRange.mk (3 : Int) 9).upper_stamp ∧
    (CaptureRange.assignUpper (CaptureRange.mk (3 : Int) 9) 7).upper_stamp = 7 ∧
    (CaptureRange.assignUpper (CaptureRange.mk (3 : Int) 9) 7).lower_stamp =
      (CaptureRange.mk (3 : Int) 9).lower_stamp :=
  dispatch_observers_const_captureRange_fields_assignable
    (fun a b : Int => decide (a < b)) (Dispatch.construct 1 2)
    (Dispatch.construct 3 4) (CaptureRange.mk 3 9) 7

/-- C4: the zero-argument construction of `CaptureRange<S>` yields the
unconstrained default: `lower_stamp = StampTraits<S>::min()` and
`upper_stamp = StampTraits<S>::max()`. -/
theorem captureRange_default_unconstrained {S : Type} [StampTraits S] :
    (CaptureRange.construct (none : Option S) none).lower_stamp =
      (StampTraits.min : S) ∧
    (CaptureRange.construct (none : Option S) none).upper_stamp =
      (StampTraits.max : S) :=
  ⟨rfl, rfl⟩

/-- Witness for the default construction at `S = int32_t`. -/
theorem captureRange_default_unconstrained_witness :
    (CaptureRange.construct (none : Option Int) none).lower_stamp =
      (StampTraits.min : Int) ∧
    (CaptureRange.construct (none : Option Int) none).upper_stamp =
      (StampTraits.max : Int) :=
  captureRange_default_unconstrained

/-- C8: the explicit `(a, b)` construction stores both bounds exactly, with
no validation or adjustment: the quantification imposes no relation between
`a` and `b`, so an inverted pair with `a > b` is stored unchanged too. -/
theorem captureRange_explicit_roundtrip {S : Type} [StampTraits S] (a b : S) :
    (CaptureRange.construct (some a) (some b)).lower_stamp = a ∧
    (CaptureRange.construct (some a) (some b)).upper_stamp = b :=
  ⟨rfl, rfl⟩

/-- Witness for the explicit construction at the inverted pair `(9, 3)`
(lower bound greater than upper bound, accepted unchanged). -/
theorem captureRange_explicit_roundtrip_witness :
    (CaptureRange.construct (some (9 : Int)) (some 3)).lower_stamp = 9 ∧
    (CaptureRange.construct (some (9 : Int)) (some 3)).upper_stamp = 3 :=
  captureRange_explicit_roundtrip 9 3

/-- C10: the one-argument form `CaptureRange(a)`, permitted because the
constructor's second parameter is defaulted, stores
`lower_stamp = a` and `upper_stamp = StampTraits<S>::max()`. -/
theorem captureRange_single_arg {S : Type} [StampTraits S] (a : S) :
    (CaptureRange.construct (some a) none).lower_stamp = a ∧
    (CaptureRange.construct (some a) none).upper_stamp =
      (StampTraits.max : S) :=
  ⟨rfl, rfl⟩

/-- Witness for the one-argument construction at `a = 5`. -/
theorem captureRange_single_arg_witness :
    (CaptureRange.construct (some (5 : Int)) none).lower_stamp = 5 ∧
    (CaptureRange.construct (some (5 : Int)) none).upper_stamp =
      (StampTraits.max : Int) :=
  captureRange_single_arg 5

/-- C2 counterexample: `float` is a fundamental scalar type, yet the
default `StampTraits<float>` is not resolvable: instantiating it
materializes `offset_type = typename std::make_signed<float>::type`, and
`std::make_signed` is ill-formed for non-integral types, so there is no
signed counterpart and no resolvable default traits for `float`. -/
theorem stampTraits_float_not_resolvable :
    isFundamental FundType.float_ = true ∧
    stampTraitsResolvable (StampTy.fund FundType.float_) = false ∧
    makeSigned FundType.float_ = none := by
  decide

/-- C2 (amended): for every fundamental integral stamp type other than
`bool`, the default `StampTraits` is resolvable, its `offset_type` is the
signed counterpart given by `std::make_signed`, `min()`/`max()` delegate to
the numeric limits, and `min() < max()` holds. For floating-point stamp
types (and `bool`) the default traits are ill-formed because
`std::make_signed` is. -/
theorem stampTraits_default_integral (t : FundType)
    (hint : isIntegral t = true) (hb : t ≠ FundType.bool) :
    stampTraitsResolvable (StampTy.fund t) = true ∧
    stampTraitsOffset (StampTy.fund t) = (makeSigned t).map OffsetTy.fund ∧
    stampTraitsMinVal (StampTy.fund t) = limitsMin t ∧
    stampTraitsMaxVal (StampTy.fund t) = limitsMax t ∧
    limitsOrdered t = true := by
  cases t <;>
    first
      | exact absurd hint (by decide)
      | exact absurd rfl hb
      | decide

/-- Witness for the default integral traits at `S = int`. -/
theorem stampTraits_default_integral_witness :
    stampTraitsResolvable (StampTy.fund FundType.int_) = true ∧
    stampTraitsOffset (StampTy.fund FundType.int_) =
      (makeSigned FundType.int_).map OffsetTy.fund ∧
    stampTraitsMinVal (StampTy.fund FundType.int_) = limitsMin FundType.int_ ∧
    stampTraitsMaxVal (StampTy.fund FundType.int_) = limitsMax FundType.int_ ∧
    limitsOrdered FundType.int_ = true :=
  stampTraits_default_integral FundType.int_ (by decide) (by decide)

/-- C7: for every time-point stamp type, `StampTraits` resolves to the
time-point specialization: `offset_type` is exactly the duration type
parameter (not a re-derived signed type), and `min()`/`max()` delegate to
`time_point::min()` / `time_point::max()`. -/
theorem stampTraits_timePoint (c : Nat) (d : DurationTy) :
    stampTraitsResolvable (StampTy.timePoint ⟨c, d⟩) = true ∧
    stampTraitsOffset (StampTy.timePoint ⟨c, d⟩) = some (OffsetTy.dur d) ∧
    stampTraitsMinVal (StampTy.timePoint ⟨c, d⟩) =
      timePointMinVal ⟨c, d⟩ ∧
    stampTraitsMaxVal (StampTy.timePoint ⟨c, d⟩) =
      timePointMaxVal ⟨c, d⟩ :=
  ⟨rfl, rfl, rfl, rfl⟩

/-- Witness for the time-point specialization at a nanosecond duration on a
`long long` representation (clock tag 0). Its offset type stays the
unsigned-free duration type itself. -/
theorem stampTraits_timePoint_witness :
    stampTraitsResolvable
      (StampTy.timePoint ⟨0, ⟨FundType.llong, 1, 1000000000⟩⟩) = true ∧
    stampTraitsOffset
      (StampTy.timePoint ⟨0, ⟨FundType.llong, 1, 1000000000⟩⟩) =
      some (OffsetTy.dur ⟨FundType.llong, 1, 1000000000⟩) ∧
    stampTraitsMinVal
      (StampTy.timePoint ⟨0, ⟨FundType.llong, 1, 1000000000⟩⟩) =
      timePointMinVal ⟨0, ⟨FundType.llong, 1, 1000000000⟩⟩ ∧
    stampTraitsMaxVal
      (StampTy.timePoint ⟨0, ⟨FundType.llong, 1, 1000000000⟩⟩) =
      timePointMaxVal ⟨0, ⟨FundType.llong, 1, 1000000000⟩⟩ :=
  stampTraits_timePoint 0 ⟨FundType.llong, 1, 1000000000⟩

/-- C9: the friend `operator<<` defined inside `Dispatch` in `dispatch.h`
does produce the exact two-line text, and the `CaptureRange` renderers
produce the exact one-line text, evaluated here at `Dispatch<int,int>(1, 2)`
and `CaptureRange<int>(3, 9)`. The separate `Dispatch` overload in
`dispatch/dispatch_ostream.h` cannot produce it: it streams
`dispatch.stamp` and `dispatch.value`, data members `Dispatch` does not
have (its members are the private `stamp_` / `value_`), so that overload is
ill-formed as soon as it is instantiated. -/
theorem dispatch_h_ostream_exact :
    Dispatch.ostream (fun n : Int => toString n) (fun n : Int => toString n)
      (Dispatch.construct 1 2) = "stamp: 1\nvalue: 2" ∧
    CaptureRange.ostream (fun n : Int => toString n)
      (CaptureRange.construct (some (3 : Int)) (some 9)) =
      "lower_stamp: 3, upper_stamp: 9" := by
  decide
